import Mathlib

/-
Verification of the interactive command-execution and log-capture subsystem
of the user-feedback tool. The definitions below are a shallow embedding of
the class FeedbackUI in feedback_ui.py: each Python method becomes a pure
Lean function on an explicit state record, external effects (spawning the
child process, the child writing lines, the child exiting, reading the
config file) become explicit parameters or events, and fallible operations
return Except.
-/

namespace UserFeedback

/-- Python str.strip() with no argument: removes leading and trailing
whitespace characters. -/
def pyStrip (s : String) : String :=
  String.mk (((s.data.dropWhile Char.isWhitespace).reverse.dropWhile
    Char.isWhitespace).reverse)

/-- Python str.rstrip() with no argument: removes trailing whitespace
characters. -/
def pyRStrip (s : String) : String :=
  String.mk ((s.data.reverse.dropWhile Char.isWhitespace).reverse)

/-- Result record, from the TypedDict FeedbackResult in feedback_ui.py
(fields logs and user_feedback). -/
structure FeedbackResult where
  logs : String
  user_feedback : String
deriving DecidableEq

/-- A JSON value, as produced by json.load. Used to model the contents of
the per-project configuration file. -/
inductive Json where
  | null : Json
  | bool (b : Bool) : Json
  | num (n : Int) : Json
  | str (s : String) : Json
  | arr (elems : List Json) : Json
  | obj (fields : List (String × Json)) : Json

/-- A live child process handle (subprocess.Popen). `command` is the shell
command it runs; `exited` models what Popen.poll() returns: none while the
process is still running, some code once it has exited. -/
structure Proc where
  command : String
  exited : Option Int
deriving DecidableEq

/-- The mutable state of a FeedbackUI instance: `process` is self.process
(Optional Popen), `log_buffer` is self.log_buffer (list of captured line
strings), `log_text` is the displayed console text (self.log_text, one
entry per appended paragraph), `command_entry` is the text of
self.command_entry, `feedback_text` the text of self.feedback_text,
`run_button_text` the label of self.run_button, and `feedback_result` is
self.feedback_result (None until submission). -/
structure FeedbackUIState where
  process : Option Proc
  log_buffer : List String
  log_text : List String
  command_entry : String
  feedback_text : String
  run_button_text : String
  feedback_result : Option FeedbackResult
deriving DecidableEq

/-- The state right after FeedbackUI.__init__ (with an empty command field
and before any auto-run): self.process = None, self.log_buffer = [],
self.feedback_result = None, and the run button labelled "&Run". -/
def initialState : FeedbackUIState :=
  { process := none
    log_buffer := []
    log_text := []
    command_entry := ""
    feedback_text := ""
    run_button_text := "&Run"
    feedback_result := none }

/-- FeedbackUI._append_log: appends the text verbatim to self.log_buffer
and the right-stripped text to the console widget. -/
def append_log (text : String) (s : FeedbackUIState) : FeedbackUIState :=
  { s with
    log_buffer := s.log_buffer ++ [text]
    log_text := s.log_text ++ [pyRStrip text] }

/-- FeedbackUI._check_process_status: if self.process is set and
self.process.poll() is not None, the process has terminated; append the
synthetic exit line, relabel the run button and drop the handle. -/
def check_process_status (s : FeedbackUIState) : FeedbackUIState :=
  match s.process with
  | some p =>
    match p.exited with
    | some exit_code =>
      let s := append_log ("\nProcess exited with code " ++ toString exit_code ++ "\n") s
      { s with run_button_text := "&Run", process := none }
    | none => s
  | none => s

/-- The status timer firing `n` times: _check_process_status is invoked
every 100ms by self.status_timer. -/
def iterateStatus : Nat → FeedbackUIState → FeedbackUIState
  | 0, s => s
  | n + 1, s => iterateStatus n (check_process_status s)

/-- FeedbackUI._run_command. The `spawn` parameter models
subprocess.Popen: given the command it either returns a live process
handle or raises (Except.error carries str(e)). If self.process is set the
method terminates it, drops the handle, relabels the button and returns —
it spawns nothing. Otherwise it clears self.log_buffer, reports an empty
command, or echoes the command and spawns. -/
def run_command (spawn : String → Except String Proc) (s : FeedbackUIState) :
    FeedbackUIState :=
  match s.process with
  | some _ =>
    { s with process := none, run_button_text := "&Run" }
  | none =>
    let s := { s with log_buffer := [] }
    let command := s.command_entry
    if command = "" then
      append_log "Please enter a command to run\n" s
    else
      let s := append_log ("$ " ++ command ++ "\n") s
      let s := { s with run_button_text := "Sto&p" }
      match spawn command with
      | Except.ok p => { s with process := some p }
      | Except.error e =>
        let s := append_log ("Error running command: " ++ e ++ "\n") s
        { s with run_button_text := "&Run" }

/-- A spawn that succeeds: Popen returns a running handle for the command. -/
def spawnOk : String → Except String Proc :=
  fun c => Except.ok { command := c, exited := none }

/-- A spawn that raises with message `err` (e.g. a missing executable). -/
def spawnFail (err : String) : String → Except String Proc :=
  fun _ => Except.error err

/-- OS event: the child process exits with the given code, so that
Popen.poll() subsequently returns it. -/
def procExit (code : Int) (s : FeedbackUIState) : FeedbackUIState :=
  { s with process := s.process.map (fun p => { p with exited := some code }) }

/-- The read_output thread body in _run_command: for each complete line
read from its pipe it emits exactly the line, unchanged, through the
single append_log signal. Both the stdout thread and the stderr thread run
this same function; the emitted messages carry nothing but the text. -/
def read_output (pipeLines : List String) : List String :=
  pipeLines

/-- Delivery of emitted messages to the UI thread: the append_log signal
is connected to _append_log, so each message is appended in order. -/
def deliver (msgs : List String) (s : FeedbackUIState) : FeedbackUIState :=
  msgs.foldl (fun st m => append_log m st) s

/-- Where a captured line came from: the stdout pipe, the stderr pipe, or
synthesized by the UI itself (echoed command, exit notification, errors). -/
inductive Origin where
  | stdout_pipe : Origin
  | stderr_pipe : Origin
  | system : Origin
deriving DecidableEq

/-- The buffer entry stored for a captured line of the given origin: the
read_output threads emit the bare line and synthetic lines are appended
directly, so the stored entry is the text itself, whatever the origin
(feedback_ui.py lines 287-301 and 241-242). -/
def bufferEntry (_o : Origin) (text : String) : String :=
  text

/-- FeedbackUI._submit_feedback: builds the FeedbackResult from the joined
log buffer and the stripped feedback text, and stores it (then closes the
window). -/
def submit_feedback (s : FeedbackUIState) : FeedbackUIState :=
  { s with
    feedback_result :=
      some { logs := String.join s.log_buffer
             user_feedback := pyStrip s.feedback_text } }

/-- FeedbackUI.clear_logs: clears only the console widget text. -/
def clear_logs (s : FeedbackUIState) : FeedbackUIState :=
  { s with log_text := [] }

/-- The tail of FeedbackUI.run after the event loop ends: if no
feedback_result was stored (window closed without submitting) a complete
result is built from the buffer with an empty user_feedback. -/
def finish_run (s : FeedbackUIState) : FeedbackResult :=
  match s.feedback_result with
  | none => { logs := String.join s.log_buffer, user_feedback := "" }
  | some r => r

/-- Outcome of attempting to read and parse .user-feedback.json in
FeedbackUI._load_config: the file may be absent (os.path.exists is false),
opening or json.load may raise (unreadable or invalid JSON), or a JSON
value is parsed. -/
inductive ConfigLoadOutcome where
  | fileMissing : ConfigLoadOutcome
  | loadError : ConfigLoadOutcome
  | parsed (j : Json) : ConfigLoadOutcome

/-- The default configuration FeedbackConfig(run_command="",
execute_automatically=False), as a dict. -/
def defaultConfig : List (String × Json) :=
  [("run_command", Json.str ""), ("execute_automatically", Json.bool false)]

/-- FeedbackUI._load_config: a missing file or any exception while reading
or parsing yields the default config; FeedbackConfig(**d) on a parsed JSON
dict returns the dict itself, and on a non-dict raises TypeError, which
the blanket except catches, yielding the default. -/
def load_config : ConfigLoadOutcome → List (String × Json)
  | ConfigLoadOutcome.fileMissing => defaultConfig
  | ConfigLoadOutcome.loadError => defaultConfig
  | ConfigLoadOutcome.parsed (Json.obj fields) => fields
  | ConfigLoadOutcome.parsed _ => defaultConfig

/-- The state just before submission in the echo-hello scenario: start
"echo hello" from a fresh session, the stdout thread delivers the line
"hello", the child exits with code 0, and the status poll observes it. -/
def echoHelloPreSubmit : FeedbackUIState :=
  check_process_status
    (procExit 0
      (deliver (read_output ["hello\n"])
        (run_command spawnOk { initialState with command_entry := "echo hello" })))

/-- The final result of the echo-hello scenario after submitting with an
empty feedback field. -/
def echoHelloResult : FeedbackResult :=
  finish_run (submit_feedback echoHelloPreSubmit)

/-- Claim C1 as stated is false: with "sleep 5" already running and the
same command entered, invoking the run action terminates the child and
returns without spawning — afterwards no process is live at all, so it is
not the case that "after the call exactly the new command's process is
live". -/
theorem C1_counterexample :
    (run_command spawnOk
      { initialState with
        process := some { command := "sleep 5", exited := none }
        command_entry := "sleep 5" }).process = none ∧
    run_command spawnOk
      { initialState with
        process := some { command := "sleep 5", exited := none }
        command_entry := "sleep 5" } =
    run_command (spawnFail "never consulted")
      { initialState with
        process := some { command := "sleep 5", exited := none }
        command_entry := "sleep 5" } :=
  ⟨rfl, rfl⟩

/-- Claim C1 (amended): invoking the run action while a child process is
running terminates that child, releases the handle and relabels the run
button, and spawns nothing — the call acts as a stop toggle, not as
stop-then-restart; the new command is only spawned by a subsequent
invocation from the idle state. Since the session holds at most one
optional process handle, at no point are two children live simultaneously. -/
theorem C1_start_while_running_stops_only (s : FeedbackUIState)
    (spawn : String → Except String Proc) (h : s.process.isSome) :
    run_command spawn s = { s with process := none, run_button_text := "&Run" } := by
  rcases s with ⟨proc, buf, lt, ce, ft, rbt, fr⟩
  rcases proc with _ | p
  · simp at h
  · rfl

/-- Witness for C1 at a concrete state: a session with "sleep 5" running. -/
theorem C1_witness :
    run_command spawnOk
      { initialState with
        process := some { command := "sleep 5", exited := none }
        command_entry := "sleep 5" } =
    { initialState with command_entry := "sleep 5" } :=
  C1_start_while_running_stops_only _ spawnOk rfl

/-- Claim C2 as stated is false: the stdout pipe and the stderr pipe are
distinct origins, yet a line of the same text captured from either is
stored as exactly the same buffer entry — the stored line carries no tag
distinguishing stderr from stdout. -/
theorem C2_counterexample :
    Origin.stdout_pipe ≠ Origin.stderr_pipe ∧
    bufferEntry Origin.stdout_pipe "hello\n" = bufferEntry Origin.stderr_pipe "hello\n" :=
  ⟨by decide, rfl⟩

/-- Claim C2 (amended): captured log lines carry no origin tag — lines
from the stdout pipe, the stderr pipe and synthetic system lines are all
stored as the bare text, indistinguishable when the text coincides. For a
command that writes to stdout, the line is nevertheless present verbatim
in the buffer and in the final logs, as the echo-hello scenario shows. -/
theorem C2_untagged_delivery :
    (∀ (o : Origin) (t : String), bufferEntry o t = t) ∧
    "hello\n" ∈ echoHelloPreSubmit.log_buffer ∧
    echoHelloResult.logs = "$ echo hello\nhello\n\nProcess exited with code 0\n" :=
  ⟨fun _ _ => rfl, by decide, by decide⟩

/-- Claim C3: for every session state, submitting builds a FeedbackResult
whose logs field is the concatenation of the buffered lines in buffer
order and whose user_feedback field is the stripped feedback text; with an
empty buffer and empty feedback text both fields are empty. -/
theorem C3_submit_builds_result :
    (∀ s : FeedbackUIState,
      (submit_feedback s).feedback_result =
        some { logs := String.join s.log_buffer
               user_feedback := pyStrip s.feedback_text }) ∧
    (submit_feedback initialState).feedback_result =
      some { logs := "", user_feedback := "" } :=
  ⟨fun _ => rfl, rfl⟩

/-- Claim C4: a missing config file or one whose contents cannot be read
and parsed as JSON yields exactly the default configuration with an empty
command and auto-run false; loading is a total function, so it never
raises to the caller. -/
theorem C4_load_config_default (o : ConfigLoadOutcome)
    (h : o = ConfigLoadOutcome.fileMissing ∨ o = ConfigLoadOutcome.loadError) :
    load_config o = defaultConfig ∧
    (load_config o).lookup "run_command" = some (Json.str "") ∧
    (load_config o).lookup "execute_automatically" = some (Json.bool false) := by
  rcases h with h | h <;> cases h <;> exact ⟨rfl, rfl, rfl⟩

/-- Witness for C4 at the malformed-JSON outcome. -/
theorem C4_witness :
    load_config ConfigLoadOutcome.loadError = defaultConfig ∧
    (load_config ConfigLoadOutcome.loadError).lookup "run_command" =
      some (Json.str "") ∧
    (load_config ConfigLoadOutcome.loadError).lookup "execute_automatically" =
      some (Json.bool false) :=
  C4_load_config_default ConfigLoadOutcome.loadError (Or.inr rfl)

/-- Claim C5 as stated is false: invoking the run action with an empty
command while idle spawns no process (it is not the start of a new run —
no spawn is even attempted, as the result is the same under a failing
spawn), yet the buffer's prior contents ["old\n"] are emptied before the
error line is appended. -/
theorem C5_counterexample :
    (run_command spawnOk { initialState with log_buffer := ["old\n"] }).process
      = none ∧
    (run_command spawnOk { initialState with log_buffer := ["old\n"] }).log_buffer
      = ["Please enter a command to run\n"] ∧
    run_command spawnOk { initialState with log_buffer := ["old\n"] } =
      run_command (spawnFail "never consulted")
        { initialState with log_buffer := ["old\n"] } :=
  ⟨rfl, rfl, rfl⟩

/-- Claim C5 (amended): a bare stop (invoking the run action while a
process is live) leaves the buffer's prior contents unchanged, but the
buffer is cleared at the beginning of every run invocation made while no
process is running — including invocations that start no run because the
command is empty or the spawn fails — so clearing is tied to the attempt,
not to a successful start. -/
theorem C5_buffer_clearing (s : FeedbackUIState)
    (spawn : String → Except String Proc) :
    (s.process.isSome → (run_command spawn s).log_buffer = s.log_buffer) ∧
    (s.process = none →
      run_command spawn s = run_command spawn { s with log_buffer := [] }) := by
  constructor
  · intro h
    rcases s with ⟨proc, buf, lt, ce, ft, rbt, fr⟩
    rcases proc with _ | p
    · simp at h
    · rfl
  · intro h
    rcases s with ⟨proc, buf, lt, ce, ft, rbt, fr⟩
    cases h
    rfl

/-- Witness for C5: stopping a "sleep 5" run keeps the prior buffer, and
an idle invocation behaves identically whatever the prior buffer was. -/
theorem C5_witness :
    (run_command spawnOk
      { initialState with
        process := some { command := "sleep 5", exited := none }
        log_buffer := ["old\n"] }).log_buffer = ["old\n"] ∧
    run_command spawnOk
      { initialState with command_entry := "echo hi", log_buffer := ["old\n"] } =
    run_command spawnOk { initialState with command_entry := "echo hi" } :=
  ⟨(C5_buffer_clearing _ spawnOk).1 rfl, (C5_buffer_clearing _ spawnOk).2 rfl⟩

/-- Claim C6: when the status poll observes an exited child it appends the
synthetic exit line exactly once, drops the handle (the not-running
state), and every further firing of the status timer — any number of
iterations — leaves the state, and in particular the buffer, unchanged. -/
theorem C6_exit_reported_once (s : FeedbackUIState) (p : Proc) (code : Int)
    (hp : s.process = some p) (he : p.exited = some code) :
    (check_process_status s).log_buffer =
      s.log_buffer ++ ["\nProcess exited with code " ++ toString code ++ "\n"] ∧
    (check_process_status s).process = none ∧
    ∀ n : Nat, iterateStatus n (check_process_status s) = check_process_status s := by
  rcases s with ⟨proc, buf, lt, ce, ft, rbt, fr⟩
  cases hp
  rcases p with ⟨pc, pe⟩
  cases he
  refine ⟨rfl, rfl, ?_⟩
  intro n
  induction n with
  | zero => rfl
  | succ k ih => exact ih

/-- Witness for C6: a child of "echo hi" that has exited with code 0, with
five further timer firings after the first observation. -/
theorem C6_witness :
    (check_process_status
      { initialState with process := some { command := "echo hi", exited := some 0 } }).log_buffer =
      [] ++ ["\nProcess exited with code " ++ toString (0 : Int) ++ "\n"] ∧
    (check_process_status
      { initialState with process := some { command := "echo hi", exited := some 0 } }).process
      = none ∧
    iterateStatus 5 (check_process_status
      { initialState with process := some { command := "echo hi", exited := some 0 } }) =
      check_process_status
        { initialState with process := some { command := "echo hi", exited := some 0 } } :=
  ⟨(C6_exit_reported_once _ _ 0 rfl rfl).1,
   (C6_exit_reported_once _ _ 0 rfl rfl).2.1,
   (C6_exit_reported_once _ _ 0 rfl rfl).2.2 5⟩

/-- Claim C7: invoking the run action with an empty command while no
process is running spawns nothing (the result does not depend on the spawn
operation at all), appends the synthetic "Please enter a command to run"
line, and leaves the run state not-running. -/
theorem C7_empty_command_no_spawn (s : FeedbackUIState)
    (spawn spawn2 : String → Except String Proc)
    (hp : s.process = none) (hc : s.command_entry = "") :
    (run_command spawn s).process = none ∧
    (run_command spawn s).log_buffer = ["Please enter a command to run\n"] ∧
    run_command spawn s = run_command spawn2 s := by
  rcases s with ⟨proc, buf, lt, ce, ft, rbt, fr⟩
  cases hp
  cases hc
  exact ⟨rfl, rfl, rfl⟩

/-- Witness for C7 at the fresh session state, whose command field is
empty, under both a succeeding and a failing spawn. -/
theorem C7_witness :
    (run_command spawnOk initialState).process = none ∧
    (run_command spawnOk initialState).log_buffer =
      ["Please enter a command to run\n"] ∧
    run_command spawnOk initialState = run_command (spawnFail "boom") initialState :=
  C7_empty_command_no_spawn initialState spawnOk (spawnFail "boom") rfl rfl

/-- Claim C8: when spawning the child raises, the failure is reported as a
synthetic log line after the echoed command, no process handle is
retained, the session is not terminated (no feedback result is forced),
and submitting afterwards succeeds with the accumulated logs plus the
stripped feedback text. -/
theorem C8_spawn_failure_recovers (s : FeedbackUIState) (err : String)
    (hp : s.process = none) (hc : ¬ s.command_entry = "") :
    (run_command (spawnFail err) s).process = none ∧
    (run_command (spawnFail err) s).log_buffer =
      ["$ " ++ s.command_entry ++ "\n",
       "Error running command: " ++ err ++ "\n"] ∧
    (run_command (spawnFail err) s).feedback_result = s.feedback_result ∧
    (submit_feedback (run_command (spawnFail err) s)).feedback_result =
      some { logs := String.join (run_command (spawnFail err) s).log_buffer
             user_feedback := pyStrip s.feedback_text } := by
  rcases s with ⟨proc, buf, lt, ce, ft, rbt, fr⟩
  cases hp
  simp only [run_command, if_neg hc]
  exact ⟨rfl, rfl, rfl, rfl⟩

/-- Witness for C8: "nonexistent-binary-xyz" fails to launch; the session
still reaches submission with the error line in the logs. -/
theorem C8_witness :
    (run_command (spawnFail "No such file or directory")
      { initialState with
        command_entry := "nonexistent-binary-xyz"
        feedback_text := " does not work " }).process = none ∧
    (run_command (spawnFail "No such file or directory")
      { initialState with
        command_entry := "nonexistent-binary-xyz"
        feedback_text := " does not work " }).log_buffer =
      ["$ nonexistent-binary-xyz\n",
       "Error running command: No such file or directory\n"] ∧
    (run_command (spawnFail "No such file or directory")
      { initialState with
        command_entry := "nonexistent-binary-xyz"
        feedback_text := " does not work " }).feedback_result = none ∧
    (submit_feedback (run_command (spawnFail "No such file or directory")
      { initialState with
        command_entry := "nonexistent-binary-xyz"
        feedback_text := " does not work " })).feedback_result =
      some { logs := "$ nonexistent-binary-xyz\nError running command: No such file or directory\n"
             user_feedback := "does not work" } :=
  C8_spawn_failure_recovers
    { initialState with
      command_entry := "nonexistent-binary-xyz"
      feedback_text := " does not work " }
    "No such file or directory" rfl (by decide)

/-- Claim C9: when the session ends without submission ever happening (no
feedback result was stored), the run still returns a complete
FeedbackResult: its user_feedback field is empty and its logs field is the
concatenation of the buffered lines at close time. -/
theorem C9_close_without_submit (s : FeedbackUIState)
    (h : s.feedback_result = none) :
    finish_run s = { logs := String.join s.log_buffer, user_feedback := "" } := by
  rcases s with ⟨proc, buf, lt, ce, ft, rbt, fr⟩
  cases h
  rfl

/-- Witness for C9 at a state holding two captured lines and no stored
result. -/
theorem C9_witness :
    finish_run { initialState with log_buffer := ["a\n", "b\n"] } =
      { logs := String.join ["a\n", "b\n"], user_feedback := "" } :=
  C9_close_without_submit _ rfl

/-- Claim C10: clearing the console empties only the displayed text; the
log buffer is untouched, and submitting after a clear yields exactly the
result submitting without it would have yielded, so every captured line —
visible or not — is still returned. -/
theorem C10_clear_logs_console_only (s : FeedbackUIState) :
    (clear_logs s).log_text = [] ∧
    (clear_logs s).log_buffer = s.log_buffer ∧
    (submit_feedback (clear_logs s)).feedback_result =
      (submit_feedback s).feedback_result ∧
    (submit_feedback (clear_logs s)).feedback_result =
      some { logs := String.join s.log_buffer
             user_feedback := pyStrip s.feedback_text } :=
  ⟨rfl, rfl, rfl, rfl⟩

end UserFeedback
